import Mathlib

/-!
Shallow embedding of `git-assets-canary-releaser` (Go) for checking the
natural-language specification against the code.

Source files embedded here:
- `lib/state.go`  — Redis-backed coordination state (`State`): locks, stable
  tag, avoid set, member registry (`CanInstallTag`, `getLock`,
  `GetRolloutProgress`, `RollbackTag`, ...).
- `cmd/root.go`   — the two control loops (`handleCanaryRelease`,
  `handleRollout`), the dispatch in `runServer`, the health-check retry
  engine (`runHealthCheck`), `handleRollback`.
- `lib/github.go` — `DownloadReleaseAsset` with its in-memory cache and
  on-disk asset cache.

Modelling conventions: Redis is a record of typed keys (`StoreState`); a
string key holds `Option String` (`none` = key absent, i.e. `redis.Nil`);
store operations are assumed available (the store-unavailable error paths
are not modelled) except where a claim is about a store failure, in which
case the failure is injected explicitly (`getLock`). External commands are
deterministic oracles carried in an environment record. Go `error` values
are the inductive `GoError`; `fmt.Errorf` with the `%s` verb yields
`GoError.flat` (the error chain is lost, `errors.Is` cannot see through
it), while `errors.Wrap` from `github.com/pkg/errors` yields
`GoError.wrapped` (the chain is preserved). Real time (TTL countdown,
ticker periods, context deadlines) is not modelled; TTLs are recorded as
data, and the tickers are replaced by explicit counts of tick firings.
-/

namespace Gacr

/-- Go `error` values as seen by `errors.Is`. Sentinel errors are the
constructors; `fmt.Errorf("...%s...", err)` loses the chain (`flat`);
`errors.Wrap err msg` keeps it (`wrapped`). -/
inductive GoError where
  | assetsNotFound                         -- lib.ErrAssetsNotFound
  | assetsCannotDownload                   -- lib.ErrAssetsCannotDownload
  | alreadyInstalled                       -- lib.ErrAlreadyInstalled
  | avoidReleaseTag                        -- lib.ErrAvoidReleaseTag
  | rollback                               -- cmd.ErrRollback
  | noRollback                             -- cmd.ErrNoRollback
  | flat (msg : String)                    -- fmt.Errorf with %s: identity lost
  | wrapped (msg : String) (inner : GoError)  -- errors.Wrap: chain preserved
  deriving DecidableEq, Repr

/-- Go `errors.Is`: walk the wrap chain looking for the target sentinel. -/
def errorsIs : GoError → GoError → Bool
  | .wrapped m inner, target => (GoError.wrapped m inner == target) || errorsIs inner target
  | e, target => e == target

/-- One invocation of the health-check command: its combined output and
whether it exited zero. -/
structure HCResult where
  out : String
  ok : Bool
  deriving DecidableEq, Repr

/-- `retry.Do` from avast/retry-go as used in `runHealthCheck`'s closure
`f`: invoke the command up to `attempts` times, stopping at the first
success; `ret` always holds the output of the last attempt made. The
command is an oracle indexed by a global invocation counter; the result is
`(lastOutput, succeeded, counterAfter)`. -/
def retryDo (cmd : Nat → HCResult) (ctr : Nat) : Nat → String × Bool × Nat
  | 0 => ("", false, ctr)
  | attempts + 1 =>
    let r := cmd ctr
    if r.ok then (r.out, true, ctr + 1)
    else if attempts = 0 then (r.out, false, ctr + 1)
    else retryDo cmd (ctr + 1) attempts

/-- The overall context deadline of the initial verification burst, from
`context.WithTimeout` in `runHealthCheck`:
`HealthCheckTimeout*Retries + HealthCheckInterval*Retries`. -/
def initialBurstDeadline (timeout interval retries : Nat) : Nat :=
  timeout * retries + interval * retries

/-- The continued-watch loop of `runHealthCheck`: each `healthCheckTick`
re-runs the whole burst `f` (with the full retry budget); the
`canaryReleaseTick` (after `watchTicks` health ticks) returns `("", nil)`.
A failed burst returns immediately with that burst's output and error. -/
def watchLoop (cmd : Nat → HCResult) (retries : Nat) :
    Nat → Nat → String × Bool × Nat
  | 0, ctr => ("", true, ctr)
  | t + 1, ctr =>
    let r := retryDo cmd ctr retries
    if r.2.1 then watchLoop cmd retries t r.2.2 else r

/-- `cmd/root.go runHealthCheck`: initial burst `f()`, then the watch loop
until the canary window elapses. `watchTicks` is the number of times the
health-check ticker fires before the canary-window ticker does. -/
def runHealthCheck (cmd : Nat → HCResult) (retries watchTicks : Nat) :
    String × Bool × Nat :=
  let r := retryDo cmd 0 retries
  if r.2.1 then watchLoop cmd retries watchTicks r.2.2 else r

/-- `lib/state.go CanInstallTag`, as a function of the tag, the output of
the version command (`GetLastInstalledTag`, assumed to succeed) and the
avoid set (`SMembers` of the avoid key). -/
def CanInstallTag (tag lastInstalledTag : String) (avoidTags : List String) :
    Option GoError :=
  if tag = "" then some (.flat "tag is empty")
  else if lastInstalledTag = "" then none
  else if lastInstalledTag = tag then some .alreadyInstalled
  else if avoidTags.contains tag then some .avoidReleaseTag
  else none

/-- A Redis key used as a lock: its value (`none` = absent) and its
time-to-live (`none` = no expiry set). -/
structure LockKey where
  value : Option String
  ttl : Option Nat
  deriving DecidableEq, Repr

/-- `lib/state.go getLock`: `SetNX key tag 0` (conditional set, no expiry)
followed, when the set succeeded, by `Expire key window`. `expireFails`
injects a failure of the second round trip. Result is
`((createdLock, error?), keyAfter)`. -/
def getLock (k : LockKey) (tag : String) (window : Nat) (expireFails : Bool) :
    (Bool × Option GoError) × LockKey :=
  match k.value with
  | some _ => ((false, none), k)
  | none =>
    if expireFails then
      ((false, some (.flat "expire failed")), ⟨some tag, none⟩)
    else
      ((true, none), ⟨some tag, some window⟩)

/-- The per-member record stored under the member's own key
(`lib/state.go MemberState`, stored as JSON). -/
structure MemberState where
  CurrentVersion : String
  deriving DecidableEq, Repr

/-- The Redis keys owned by `lib/state.go State`, with the store assumed
reachable. `members` is the member-registry set (`membersTagKey`);
`records` maps a member id to its per-member record, `none` meaning the
record's TTL has expired (`redis.Nil` on `Get`). -/
structure StoreState where
  canaryLock : LockKey                     -- canaryReleaseTagKey
  rolloutLock : LockKey                    -- rolloutKey
  stableTag : Option String                -- stableReleaseTagKey
  avoidTags : List String                  -- avoidReleaseTagKey (a set)
  members : List String                    -- membersTagKey (a set)
  records : List (String × MemberState)    -- one key per member
  deriving DecidableEq, Repr

/-- `lib/state.go CurrentStableTag` via `getRelease`: an absent key
(`redis.Nil`) is returned as `""` with no error. -/
def CurrentStableTag (s : StoreState) : String :=
  match s.stableTag with
  | none => ""
  | some v => v

/-- Association-list update used to model `SetEx` on a member's key. -/
def recordSet (records : List (String × MemberState)) (m : String)
    (ms : MemberState) : List (String × MemberState) :=
  match records with
  | [] => [(m, ms)]
  | (k, v) :: rest =>
    if k = m then (m, ms) :: rest else (k, v) :: recordSet rest m ms

/-- `lib/state.go SaveMemberState`: `SAdd membersTagKey me` and
`SetEx me {CurrentVersion} (RolloutWindow*2)` in one pipeline; the version
comes from `GetLastInstalledTag` (assumed to succeed). -/
def SaveMemberState (me currentVersion : String) (s : StoreState) : StoreState :=
  { s with
    members := if s.members.contains me then s.members else s.members ++ [me]
    records := recordSet s.records me ⟨currentVersion⟩ }

/-- The member-scanning loop inside `GetRolloutProgress`: walk the
registry in order, counting members whose record reports
`CurrentVersion == tag` and collecting members whose record has expired
(`redis.Nil`) into `deletedMembers`. -/
def rolloutScan (records : List (String × MemberState)) (tag : String) :
    List String → Nat × List String
  | [] => (0, [])
  | m :: rest =>
    match records.lookup m with
    | none =>
      let r := rolloutScan records tag rest
      (r.1, m :: r.2)
    | some ms =>
      let r := rolloutScan records tag rest
      (if ms.CurrentVersion = tag then r.1 + 1 else r.1, r.2)

/-- `lib/state.go GetRolloutProgress`: `SMembers` the registry, take
`all := len(members)` up front, scan the members, then `SRem` the expired
ones from the registry. Returns `((installed, all), storeAfter)`. -/
def GetRolloutProgress (s : StoreState) (tag : String) :
    (Nat × Nat) × StoreState :=
  let members := s.members
  let all := members.length
  let scan := rolloutScan s.records tag members
  let s' :=
    if scan.2.length > 0 then
      { s with members := s.members.filter (fun m => !scan.2.contains m) }
    else s
  ((scan.1, all), s')

/-- `lib/state.go RollbackTag`: prefer the pre-deploy installed version,
fall back to the current stable tag, and fail when both are empty. -/
def RollbackTag (beforeInstall : String) (s : StoreState) :
    Except GoError String :=
  let rollbackTag := if beforeInstall = "" then CurrentStableTag s else beforeInstall
  if rollbackTag = "" then .error (.flat "can't decided rollback tag")
  else .ok rollbackTag

/-! ### `lib/github.go`: release-asset download with cache -/

/-- A GitHub release as returned by the API: its tag name and the names of
its assets, in order. -/
structure Release where
  tagName : String
  assets : List String
  deriving DecidableEq, Repr

/-- The fixed remote/config surroundings of `GitHub`: the release the API
returns for a tag (`none` = `GetReleaseByTag` error), the compiled
`PackageNamePattern` as a predicate on asset names, and
`SaveAssetsPath`. -/
structure GitHubEnv where
  releaseByTag : String → Option Release
  pattern : String → Bool
  saveAssetsPath : String

/-- The mutable state of `GitHub`: which asset files exist on disk, and
the in-memory cache fields `lastTag` / `lastAssetFile`. -/
structure GitHubState where
  fs : List String
  lastTag : String
  lastAssetFile : String
  deriving DecidableEq, Repr

/-- `filepath.Join(SaveAssetsPath, assetName)`. -/
def assetPath (env : GitHubEnv) (name : String) : String :=
  env.saveAssetsPath ++ "/" ++ name

/-- The asset loop inside `DownloadReleaseAsset`: find the first asset
matching the name pattern; if its file already exists return it without
downloading, otherwise download it (counted in the third component),
create the file and fill the cache. The remote transfer itself is assumed
to succeed. -/
def findAsset (env : GitHubEnv) (g : GitHubState) (tagName : String) :
    List String → Except GoError (String × String) × GitHubState × Nat
  | [] => (.error .assetsNotFound, g, 0)
  | name :: rest =>
    if env.pattern name then
      let filePath := assetPath env name
      if g.fs.contains filePath then (.ok (tagName, filePath), g, 0)
      else
        (.ok (tagName, filePath),
         ⟨filePath :: g.fs, tagName, filePath⟩, 1)
    else findAsset env g tagName rest

/-- `lib/github.go DownloadReleaseAsset` for an explicit (non-`latest`)
tag: serve from the `lastTag`/`lastAssetFile` cache when possible,
otherwise `GetReleaseByTag` and walk the assets. Returns
`(result, stateAfter, downloadsPerformed)`. A `GetReleaseByTag` error is
wrapped around `ErrAssetsCannotDownload` with `errors.Wrap`. -/
def DownloadReleaseAsset (env : GitHubEnv) (g : GitHubState) (tag : String) :
    Except GoError (String × String) × GitHubState × Nat :=
  if tag ≠ "" ∧ tag = g.lastTag ∧ g.lastAssetFile ≠ "" then
    (.ok (tag, g.lastAssetFile), g, 0)
  else
    match env.releaseByTag tag with
    | none =>
      (.error (.wrapped "repositories.GetRelease returned error" .assetsCannotDownload), g, 0)
    | some release => findAsset env g release.tagName release.assets

/-! ### `cmd/root.go`: the two control loops, rollback, dispatch -/

/-- What `DownloadReleaseAsset` returns on a given call, as seen by the
control loops: success with `(tag, assetFile)`, `ErrAssetsNotFound`, or a
download failure wrapping `ErrAssetsCannotDownload`. -/
inductive DownloadResult where
  | ok (tag file : String)
  | errNotFound
  | errCannotDownload
  deriving DecidableEq, Repr

/-- An observable action of a control loop: `executeCommand cmd` with the
`RELEASE_TAG` and `ASSET_FILE` environment values. -/
inductive Event where
  | exec (cmd tag file : String)
  deriving DecidableEq, Repr

/-- The `lib.LatestTag` constant. -/
def LatestTag : String := "latest"

/-- The deterministic surroundings of one tick of a control loop: the
node's member id, the version command's output (`GetLastInstalledTag`,
assumed to succeed), the download oracle keyed by requested tag, the
config commands, the lock windows, the deploy/rollback command outcomes
and the health-check oracle. -/
structure Env where
  me : String
  versionOut : String
  download : String → DownloadResult
  deployCommand : String
  rollbackCommand : String                 -- "" = not configured
  deployCmdOk : Bool
  rollbackCmdOk : Bool
  canaryWindow : Nat                       -- config.CanaryRolloutWindow
  rolloutWindow : Nat                      -- config.RolloutWindow
  healthCmd : Nat → HCResult
  retries : Nat                            -- config.HealthCheckRetries
  watchTicks : Nat                         -- health ticks before the canary window elapses

/-- `cmd/root.go deploy`: download the asset for the target tag (errors
are flattened by `fmt.Errorf("can't get release asset:%s %s", ...)`),
read the current version, then `executeCommand` the given command with the
5-minute timeout. `cmdOk` is that command's exit status. -/
def deploy (cmdStr : String) (cmdOk : Bool) (targetTag : String) (env : Env) :
    Except GoError (String × String) × List Event :=
  match env.download targetTag with
  | .errNotFound => (.error (.flat "can't get release asset"), [])
  | .errCannotDownload => (.error (.flat "can't get release asset"), [])
  | .ok tag file =>
    if cmdOk then (.ok (tag, file), [.exec cmdStr tag file])
    else (.error (.flat "failed to execute command"), [.exec cmdStr tag file])

/-- `cmd/root.go handleRollback`: a missing rollback command is the
distinguished `ErrNoRollback`; a successful rollback invocation is the
distinguished `ErrRollback`; a failed invocation is wrapped as
"rollback command failed". -/
def handleRollback (rollbackTag : String) (env : Env) :
    Option GoError × List Event :=
  if env.rollbackCommand = "" then (some .noRollback, [])
  else
    match deploy env.rollbackCommand env.rollbackCmdOk rollbackTag env with
    | (.error e, evs) => (some (.wrapped "rollback command failed" e), evs)
    | (.ok _, evs) => (some .rollback, evs)

/-- `lib/state.go TryCanaryReleaseLock`: `getLock` on the canary key with
window `CanaryRolloutWindow * 2` (store assumed healthy). -/
def TryCanaryReleaseLock (s : StoreState) (tag : String) (canaryWindow : Nat) :
    Bool × StoreState :=
  let r := getLock s.canaryLock tag (canaryWindow * 2) false
  (r.1.1, { s with canaryLock := r.2 })

/-- `lib/state.go TryRolloutLock`: `getLock` on the rollout key with
window `RolloutWindow` (store assumed healthy). -/
def TryRolloutLock (s : StoreState) (tag : String) (rolloutWindow : Nat) :
    Bool × StoreState :=
  let r := getLock s.rolloutLock tag rolloutWindow false
  (r.1.1, { s with rolloutLock := r.2 })

/-- `lib/state.go SaveAvoidReleaseTag`: `SAdd` on the avoid set. -/
def SaveAvoidReleaseTag (tag : String) (s : StoreState) : StoreState :=
  { s with avoidTags := if s.avoidTags.contains tag then s.avoidTags else s.avoidTags ++ [tag] }

/-- `cmd/root.go handleCanaryRelease`: one tick of the canary loop.
Returns the tick's error (as `runServer` receives it), the store after the
tick and the commands executed. -/
def handleCanaryRelease (env : Env) (s0 : StoreState) :
    Option GoError × StoreState × List Event :=
  let s1 := SaveMemberState env.me env.versionOut s0
  let lastInstalledTag := env.versionOut
  let stableTab := CurrentStableTag s1
  match env.download LatestTag with
  | .errNotFound => (some (.flat "can't get release asset"), s1, [])
  | .errCannotDownload => (some (.flat "can't get release asset"), s1, [])
  | .ok tag _ =>
    if tag = stableTab then (none, s1, [])
    else
      match CanInstallTag tag lastInstalledTag s1.avoidTags with
      | some e => (some e, s1, [])
      | none =>
        let lock := TryCanaryReleaseLock s1 tag env.canaryWindow
        let s2 := lock.2
        if lock.1 then
          match deploy env.deployCommand env.deployCmdOk tag env with
          | (.error e, evs) => (some (.wrapped "deploy command failed" e), s2, evs)
          | (.ok (tag2, _), evs) =>
            let hc := runHealthCheck env.healthCmd env.retries env.watchTicks
            if hc.2.1 then
              let s3 := { s2 with stableTag := some tag2 }
              let s4 := SaveMemberState env.me env.versionOut s3
              let s5 := { s4 with canaryLock := ⟨none, none⟩ }
              (none, s5, evs)
            else
              let s3 := SaveAvoidReleaseTag tag2 s2
              match RollbackTag lastInstalledTag s3 with
              | .error e => (some e, s3, evs)
              | .ok rbTag =>
                let rb := handleRollback rbTag env
                (rb.1, s3, evs ++ rb.2)
        else (none, s2, [])

/-- `cmd/root.go handleRollout`: one tick of the rollout loop. -/
def handleRollout (env : Env) (s0 : StoreState) :
    Option GoError × StoreState × List Event :=
  let s1 := SaveMemberState env.me env.versionOut s0
  let tag := CurrentStableTag s1
  if tag = "" then (none, s1, [])
  else
    match CanInstallTag tag env.versionOut s1.avoidTags with
    | some e => (some e, s1, [])
    | none =>
      let lock := TryRolloutLock s1 tag env.rolloutWindow
      let s2 := lock.2
      if lock.1 then
        match deploy env.deployCommand env.deployCmdOk tag env with
        | (.error e, evs) => (some (.wrapped "deploy command failed" e), s2, evs)
        | (.ok _, evs) =>
          let s3 := SaveMemberState env.me env.versionOut s2
          let s4 := (GetRolloutProgress s3 tag).2
          (none, s4, evs)
      else (none, s2, [])

/-- How `runServer` reacts to one tick's error: keep looping (after a
debug / warn / info log) or return the error, which makes the process exit
non-zero. -/
inductive TickOutcome where
  | continueLoop                           -- nil error: next tick
  | continueDebug                          -- slog.Debug, next tick
  | continueWarn                           -- slog.Warn, next tick
  | continueRollbackLogged                 -- slog.Warn "rollback success", next tick
  | continueNoRollback                     -- slog.Info "no rollback ...", next tick
  | fatal (e : GoError)                    -- return err: process halts
  deriving DecidableEq, Repr

/-- The `gitTicker` arm of the `select` in `runServer`: the dispatch on
`handleCanaryRelease`'s error. -/
def dispatchCanary (res : Option GoError) : TickOutcome :=
  match res with
  | none => .continueLoop
  | some err =>
    if errorsIs err .assetsNotFound || errorsIs err .alreadyInstalled
        || errorsIs err .avoidReleaseTag then .continueDebug
    else if errorsIs err .assetsCannotDownload then .continueWarn
    else if errorsIs err .rollback then .continueRollbackLogged
    else if errorsIs err .noRollback then .continueNoRollback
    else .fatal err

/-- The `rolloutTicker` arm of the `select` in `runServer`: the dispatch
on `handleRollout`'s error. -/
def dispatchRollout (res : Option GoError) : TickOutcome :=
  match res with
  | none => .continueLoop
  | some err =>
    if errorsIs err .alreadyInstalled then .continueDebug
    else if errorsIs err .assetsCannotDownload then .continueWarn
    else .fatal err

/-! ### Helper lemmas -/

theorem rolloutScan_snd (records : List (String × MemberState)) (tag : String) :
    ∀ ms : List String,
      (rolloutScan records tag ms).2 =
        ms.filter (fun m => (records.lookup m).isNone)
  | [] => rfl
  | m :: rest => by
    cases h : records.lookup m <;>
      simp [rolloutScan, h, List.filter, rolloutScan_snd records tag rest]

theorem rolloutScan_fst (records : List (String × MemberState)) (tag : String) :
    ∀ ms : List String,
      (rolloutScan records tag ms).1 =
        (ms.filter (fun m =>
          match records.lookup m with
          | some r => decide (r.CurrentVersion = tag)
          | none => false)).length
  | [] => rfl
  | m :: rest => by
    cases h : records.lookup m
    · simp [rolloutScan, h, List.filter, rolloutScan_fst records tag rest]
    · rename_i r
      by_cases hv : r.CurrentVersion = tag <;>
        simp [rolloutScan, h, hv, List.filter, rolloutScan_fst records tag rest]

theorem GetRolloutProgress_members (s : StoreState) (tag : String) :
    (GetRolloutProgress s tag).2.members =
      s.members.filter (fun m => (s.records.lookup m).isSome) := by
  by_cases h : (rolloutScan s.records tag s.members).2.length > 0
  · simp only [GetRolloutProgress, if_pos h]
    rw [rolloutScan_snd]
    refine List.filter_congr ?_
    intro m hm
    cases hn : s.records.lookup m with
    | none =>
      have hmem : m ∈ s.members.filter (fun x => (s.records.lookup x).isNone) :=
        List.mem_filter.mpr ⟨hm, by simp [hn]⟩
      simp [List.contains, List.elem_eq_mem, hmem, hn]
    | some r =>
      have hmem : m ∉ s.members.filter (fun x => (s.records.lookup x).isNone) := by
        simp [List.mem_filter, hn]
      simp [List.contains, List.elem_eq_mem, hmem, hn]
  · simp only [GetRolloutProgress, if_neg h]
    rw [rolloutScan_snd] at h
    simp only [gt_iff_lt, not_lt, Nat.le_zero, List.length_eq_zero] at h
    symm
    refine List.filter_eq_self.mpr ?_
    intro m hm
    cases hn : s.records.lookup m with
    | none =>
      exfalso
      have : m ∈ s.members.filter (fun x => (s.records.lookup x).isNone) :=
        List.mem_filter.mpr ⟨hm, by simp [hn]⟩
      rw [h] at this
      simp at this
    | some r => simp [hn]

/-! ### Claims -/

/-- Claim C1 (counterexample): a registry with one member whose record has
expired. `GetRolloutProgress` returns `totalCount = 1`, counting the
expired member, although the claim says expired members are excluded from
both counts (which would give `totalCount = 0`); the member is pruned from
the registry all the same. -/
theorem GetRolloutProgress_total_counts_expired :
    (GetRolloutProgress
        ⟨⟨none, none⟩, ⟨none, none⟩, none, [], ["n1"], []⟩ "v1").1 = (0, 1)
    ∧ (List.lookup "n1" ([] : List (String × MemberState))) = none
    ∧ (GetRolloutProgress
        ⟨⟨none, none⟩, ⟨none, none⟩, none, [], ["n1"], []⟩ "v1").2.members = [] := by
  refine ⟨rfl, rfl, rfl⟩

/-- Claim C1 (amended): `GetRolloutProgress tag` returns
`installedCount` = the number of registry members whose record is live and
reports `CurrentVersion == tag` (expired members excluded), but
`totalCount` = the size of the registry as read at the start of the call,
*including* members whose record has expired; those expired members are
pruned, so after the call the registry contains exactly the members that
had a live record. -/
theorem GetRolloutProgress_spec (s : StoreState) (tag : String) :
    (GetRolloutProgress s tag).1.1 =
      (s.members.filter (fun m =>
        match s.records.lookup m with
        | some r => decide (r.CurrentVersion = tag)
        | none => false)).length
    ∧ (GetRolloutProgress s tag).1.2 = s.members.length
    ∧ ∀ m, m ∈ (GetRolloutProgress s tag).2.members ↔
        (m ∈ s.members ∧ (s.records.lookup m).isSome) := by
  refine ⟨?_, rfl, ?_⟩
  · simp [GetRolloutProgress, rolloutScan_fst]
  · intro m
    rw [GetRolloutProgress_members, List.mem_filter]

/-- Claim C2 (counterexample): with no locally installed version
(`GetLastInstalledTag` returns `""`), a tag in the Avoid Set that differs
from the installed version is accepted (`nil`) instead of yielding the
"avoid" signal: `CanInstallTag` returns early before consulting the avoid
set. -/
theorem CanInstallTag_skips_avoid_when_uninstalled :
    CanInstallTag "v1" "" ["v1"] = none
    ∧ ["v1"].contains "v1" = true
    ∧ "v1" ≠ "" := by
  refine ⟨rfl, rfl, by decide⟩

/-- Claim C2 (amended): `CanInstallTag` errors on an empty tag, returns
the "already installed" signal when the tag equals the locally installed
version, and returns the "avoid" signal when the tag is in the Avoid Set —
but the avoid-set check applies only when the locally installed version is
*nonempty* and differs from the tag; when the installed version is empty
the function accepts the tag without consulting the avoid set. -/
theorem CanInstallTag_gate_spec (tag inst : String) (avoid : List String) :
    (tag = "" → CanInstallTag tag inst avoid = some (.flat "tag is empty"))
    ∧ (tag ≠ "" → inst = "" → CanInstallTag tag inst avoid = none)
    ∧ (tag ≠ "" → inst = tag → CanInstallTag tag inst avoid = some .alreadyInstalled)
    ∧ (tag ≠ "" → inst ≠ "" → inst ≠ tag → avoid.contains tag →
        CanInstallTag tag inst avoid = some .avoidReleaseTag)
    ∧ (tag ≠ "" → inst ≠ tag → ¬ avoid.contains tag →
        CanInstallTag tag inst avoid = none) := by
  refine ⟨?_, ?_, ?_, ?_, ?_⟩
  · intro h
    simp [CanInstallTag, h]
  · intro h hi
    simp [CanInstallTag, h, hi]
  · intro h hi
    have hne : inst ≠ "" := by rw [hi]; exact h
    simp [CanInstallTag, h, hi, hne]
  · intro h hne hnt hav
    simp [List.contains, List.elem_eq_mem] at hav
    simp [CanInstallTag, h, hne, hnt, hav]
  · intro h hnt hnav
    by_cases hi : inst = ""
    · simp [CanInstallTag, h, hi]
    · simp [List.contains, List.elem_eq_mem] at hnav
      simp [CanInstallTag, h, hi, hnt, hnav]

/-- Claim C2 witness: a fresh tag, with a different version installed and
an unrelated avoid set, is accepted. -/
theorem CanInstallTag_gate_spec_witness :
    CanInstallTag "v2" "v1" ["v3"] = none :=
  (CanInstallTag_gate_spec "v2" "v1" ["v3"]).2.2.2.2 (by decide) (by decide)
    (by decide)

/-- Claim C5: `getLock` is `SetNX` (set only if absent) followed by
`Expire`. With both round trips succeeding it returns `true` exactly when
this call created the lock, and on success the key's TTL is the given
window; when the second round trip (`Expire`) fails, the lock value is
still set — never silently unlocked. The canary lock uses
`CanaryRolloutWindow * 2` and the rollout lock uses `RolloutWindow`. -/
theorem getLock_spec (k : LockKey) (tag : String) (window : Nat) :
    ((getLock k tag window false).1.1 = true ↔ k.value = none)
    ∧ (k.value = none → (getLock k tag window false).2 = ⟨some tag, some window⟩)
    ∧ (k.value = none → (getLock k tag window true).2.value = some tag)
    ∧ (∀ s cw, s.canaryLock.value = none →
        (TryCanaryReleaseLock s tag cw).2.canaryLock.ttl = some (cw * 2))
    ∧ (∀ s rw, s.rolloutLock.value = none →
        (TryRolloutLock s tag rw).2.rolloutLock.ttl = some rw) := by
  refine ⟨?_, ?_, ?_, ?_, ?_⟩
  · cases hv : k.value <;> simp [getLock, hv]
  · intro hv
    simp [getLock, hv]
  · intro hv
    simp [getLock, hv]
  · intro s cw hv
    simp [TryCanaryReleaseLock, getLock, hv]
  · intro s rw hv
    simp [TryRolloutLock, getLock, hv]

/-- Claim C5 witness: acquiring a free lock creates it with the given
window as its expiry. -/
theorem getLock_spec_witness :
    (getLock ⟨none, none⟩ "v1" 10 false).1.1 = true
    ∧ (getLock ⟨none, none⟩ "v1" 10 false).2 = ⟨some "v1", some 10⟩ :=
  ⟨(getLock_spec ⟨none, none⟩ "v1" 10).1.mpr rfl,
   (getLock_spec ⟨none, none⟩ "v1" 10).2.1 rfl⟩

/-- A generic environment for concrete witnesses: healthy store, a fresh
release `v2` with an installed `v1`, all commands succeeding. -/
def envW : Env :=
  { me := "host:owner/repo"
    versionOut := "v1"
    download := fun _ => .ok "v2" "/usr/local/src/app.tar.gz"
    deployCommand := "deploy.sh"
    rollbackCommand := "rollback.sh"
    deployCmdOk := true
    rollbackCmdOk := true
    canaryWindow := 5
    rolloutWindow := 1
    healthCmd := fun _ => ⟨"healthy", true⟩
    retries := 3
    watchTicks := 2 }

/-- An empty store: no locks, no stable tag, no avoid tags, no members. -/
def store0 : StoreState := ⟨⟨none, none⟩, ⟨none, none⟩, none, [], [], []⟩

/-- Claim C10: a missing stable-tag key is not an error —
`CurrentStableTag` reads it as `""` (the `redis.Nil` branch of
`getRelease` returns `("", nil)`), and a rollout tick with an empty stable
tag returns `nil` having only refreshed this node's member record: no
command runs and nothing else in the store changes. -/
theorem stableTag_absent_noop (env : Env) (s : StoreState)
    (h : s.stableTag = none) :
    CurrentStableTag s = ""
    ∧ (handleRollout env s).1 = none
    ∧ (handleRollout env s).2.1 = SaveMemberState env.me env.versionOut s
    ∧ (handleRollout env s).2.2 = [] := by
  have h1 : CurrentStableTag (SaveMemberState env.me env.versionOut s) = "" := by
    simp [CurrentStableTag, SaveMemberState, h]
  refine ⟨by simp [CurrentStableTag, h], ?_, ?_, ?_⟩ <;>
    simp [handleRollout, h1]

/-- Claim C10 witness: a rollout tick against an empty store is a no-op. -/
theorem stableTag_absent_noop_witness :
    store0.stableTag = none ∧ (handleRollout envW store0).1 = none :=
  ⟨rfl, (stableTag_absent_noop envW store0 rfl).2.1⟩

/-- The canary environment in which no release asset matches the
configured name pattern: `DownloadReleaseAsset` yields
`ErrAssetsNotFound`. -/
def envNoAsset : Env := { envW with download := fun _ => .errNotFound }

/-- A rollout environment on a node running `v0` whose stable tag `v1` has
been added to the Avoid Set. -/
def envAvoidRollout : Env := { envW with versionOut := "v0" }

/-- The store for the rollout half of the C4 evaluation: stable tag `v1`,
avoid set `{v1}`. -/
def storeAvoid : StoreState := ⟨⟨none, none⟩, ⟨none, none⟩, some "v1", ["v1"], [], []⟩

/-- Claim C4 (failing evaluation): two expected steady-state conditions
*are* propagated as fatal errors. (1) `handleCanaryRelease` flattens a
"no matching asset" result with `fmt.Errorf("can't get release asset:%s
%s", ...)`, so `errors.Is(err, ErrAssetsNotFound)` in `runServer` cannot
match it and the canary arm returns the error, halting the process —
even though `runServer` explicitly tests for that sentinel. (2) The
rollout arm of `runServer` only tests `ErrAlreadyInstalled` and
`ErrAssetsCannotDownload`, so a stable tag present in the Avoid Set makes
`handleRollout` return `ErrAvoidReleaseTag` and the process halts. -/
theorem steady_state_conditions_fatal :
    (handleCanaryRelease envNoAsset store0).1 = some (.flat "can't get release asset")
    ∧ dispatchCanary (handleCanaryRelease envNoAsset store0).1 =
        .fatal (.flat "can't get release asset")
    ∧ (handleRollout envAvoidRollout storeAvoid).1 = some .avoidReleaseTag
    ∧ dispatchRollout (handleRollout envAvoidRollout storeAvoid).1 =
        .fatal .avoidReleaseTag := by
  refine ⟨rfl, rfl, rfl, rfl⟩

/-- The health-check command for the continued-watch evaluation: its
second invocation (the first attempt of the first watch-phase burst)
fails, every other invocation succeeds. -/
def c3cmd : Nat → HCResult :=
  fun n => if n = 1 then ⟨"watch fail", false⟩ else ⟨"ok", true⟩

/-- Claim C3 (counterexample): with 2 configured attempts and a
one-health-tick watch, the initial burst succeeds on invocation 0; the
watch-phase burst's first attempt (invocation 1) fails, yet the
verification still succeeds after a *retry* (invocation 2) — the watch
phase re-runs the whole retry burst, so a watch-phase failure neither
fails the verification immediately nor finds the retry budget consumed. -/
theorem runHealthCheck_watch_failure_retries :
    retryDo c3cmd 0 2 = ("ok", true, 1)
    ∧ (c3cmd 1).ok = false
    ∧ runHealthCheck c3cmd 2 1 = ("", true, 3) := by
  refine ⟨rfl, rfl, rfl⟩

/-- Modelled from the spec's amended wording: every watch-phase burst
(each with the full retry budget) succeeds. -/
def allWatchOk (cmd : Nat → HCResult) (retries : Nat) : Nat → Nat → Bool
  | 0, _ => true
  | t + 1, ctr =>
    let r := retryDo cmd ctr retries
    r.2.1 && allWatchOk cmd retries t r.2.2

theorem watchLoop_spec (cmd : Nat → HCResult) (retries : Nat) :
    ∀ t ctr, ((watchLoop cmd retries t ctr).2.1 = allWatchOk cmd retries t ctr)
      ∧ ((watchLoop cmd retries t ctr).2.1 = true →
          (watchLoop cmd retries t ctr).1 = "")
  | 0, ctr => ⟨rfl, fun _ => rfl⟩
  | t + 1, ctr => by
    have ih := watchLoop_spec cmd retries t (retryDo cmd ctr retries).2.2
    cases hr : (retryDo cmd ctr retries).2.1
    · constructor
      · simp [watchLoop, allWatchOk, hr]
      · intro hq
        simp [watchLoop, hr] at hq
    · constructor
      · simp [watchLoop, allWatchOk, hr, ih.1]
      · intro hq
        simp [watchLoop, hr] at hq ⊢
        exact ih.2 hq

/-- Claim C3 (amended): if the initial burst succeeds, the health check
burst — with the full configured retry budget, not a single attempt — is
re-invoked on each health-check tick until the canary window elapses;
overall success (with empty output) is reported exactly when the initial
burst and every watch-phase burst succeed, and a wholly failed watch-phase
burst fails the verification at that point. -/
theorem runHealthCheck_watch_spec (cmd : Nat → HCResult) (retries watchTicks : Nat) :
    ((runHealthCheck cmd retries watchTicks).2.1 =
      ((retryDo cmd 0 retries).2.1 &&
        allWatchOk cmd retries watchTicks (retryDo cmd 0 retries).2.2))
    ∧ ((runHealthCheck cmd retries watchTicks).2.1 = true →
        (runHealthCheck cmd retries watchTicks).1 = "") := by
  have hs := watchLoop_spec cmd retries watchTicks (retryDo cmd 0 retries).2.2
  cases hr : (retryDo cmd 0 retries).2.1
  · constructor
    · simp [runHealthCheck, hr]
    · intro hq
      simp [runHealthCheck, hr] at hq
  · constructor
    · simp [runHealthCheck, hr, hs.1]
    · intro hq
      simp [runHealthCheck, hr] at hq ⊢
      exact hs.2 hq

/-- Claim C3 (amended) witness: the counterexample run, seen through the
amended statement — both its bursts succeed, so it reports success with
empty output. -/
theorem runHealthCheck_watch_spec_witness :
    (runHealthCheck c3cmd 2 1).1 = "" :=
  (runHealthCheck_watch_spec c3cmd 2 1).2 rfl

theorem retryDo_ctr_le (cmd : Nat → HCResult) :
    ∀ n ctr, (retryDo cmd ctr n).2.2 ≤ ctr + n
  | 0, ctr => Nat.le_add_right ctr 0
  | n + 1, ctr => by
    have ih := retryDo_ctr_le cmd n (ctr + 1)
    cases hok : (cmd ctr).ok
    · by_cases hn : n = 0
      · subst hn
        simp [retryDo, hok]
      · simp only [retryDo, hok, Bool.false_eq_true, if_false, if_neg hn]
        omega
    · simp [retryDo, hok]

theorem retryDo_false_iff (cmd : Nat → HCResult) :
    ∀ n ctr, ((retryDo cmd ctr n).2.1 = false ↔
      ∀ i, i < n → (cmd (ctr + i)).ok = false)
  | 0, ctr => by simp [retryDo]
  | n + 1, ctr => by
    have ih := retryDo_false_iff cmd n (ctr + 1)
    cases hok : (cmd ctr).ok
    · by_cases hn : n = 0
      · subst hn
        simp only [retryDo, hok, Bool.false_eq_true, if_false, if_pos rfl]
        constructor
        · intro _ i hi
          interval_cases i
          simpa using hok
        · intro _
          rfl
      · simp only [retryDo, hok, Bool.false_eq_true, if_false, if_neg hn]
        rw [ih]
        constructor
        · intro hall i hi
          rcases Nat.eq_zero_or_pos i with h0 | hpos
          · subst h0
            simpa using hok
          · have := hall (i - 1) (by omega)
            have harith : ctr + 1 + (i - 1) = ctr + i := by omega
            rwa [harith] at this
        · intro hall i hi
          have := hall (i + 1) (by omega)
          have harith : ctr + (i + 1) = ctr + 1 + i := by omega
          rwa [harith] at this
    · simp only [retryDo, hok, if_pos rfl]
      constructor
      · intro hf
        exact absurd hf (by simp)
      · intro hall
        have := hall 0 (by omega)
        simp [hok] at this
  termination_by n => n

theorem retryDo_false_out (cmd : Nat → HCResult) :
    ∀ n ctr, n ≠ 0 → (retryDo cmd ctr n).2.1 = false →
      (retryDo cmd ctr n).1 = (cmd (ctr + n - 1)).out
      ∧ (retryDo cmd ctr n).2.2 = ctr + n
  | 0, _, hn, _ => absurd rfl hn
  | n + 1, ctr, _, hf => by
    cases hok : (cmd ctr).ok
    · by_cases hn : n = 0
      · subst hn
        simp [retryDo, hok]
      · have ih := retryDo_false_out cmd n (ctr + 1) hn
        simp only [retryDo, hok, Bool.false_eq_true, if_false, if_neg hn] at hf ⊢
        have := ih hf
        have harith : ctr + 1 + n - 1 = ctr + (n + 1) - 1 := by omega
        constructor
        · rw [this.1, harith]
        · rw [this.2]
          omega
    · exfalso
      simp [retryDo, hok] at hf

/-- The health-check command of the spec's first concrete scenario: fails
twice, then succeeds. -/
def hcFailTwice : Nat → HCResult :=
  fun n => if n < 2 then ⟨String.append "fail" (toString n), false⟩ else ⟨"ok", true⟩

/-- The health-check command of the spec's second concrete scenario:
always fails, with a per-invocation output. -/
def hcAlwaysFail : Nat → HCResult :=
  fun n => ⟨String.append "fail" (toString n), false⟩

/-- Claim C8: the initial verification burst runs under the deadline
`timeout*retries + interval*retries` (the `context.WithTimeout` argument),
invokes the health-check command at most `retries` times, fails exactly
when every attempt fails, and on failure surfaces the last attempt's
output after exactly `retries` invocations. Concretely, with 3 attempts a
command failing twice then succeeding verifies successfully in exactly 3
invocations, and an always-failing command fails after exactly 3
invocations with the third attempt's output. -/
theorem runHealthCheck_initial_burst_spec (cmd : Nat → HCResult)
    (retries : Nat) (h : 1 ≤ retries) :
    ((retryDo cmd 0 retries).2.2 ≤ retries)
    ∧ ((retryDo cmd 0 retries).2.1 = false ↔
        ∀ i, i < retries → (cmd i).ok = false)
    ∧ ((retryDo cmd 0 retries).2.1 = false →
        (retryDo cmd 0 retries).1 = (cmd (retries - 1)).out
        ∧ (retryDo cmd 0 retries).2.2 = retries)
    ∧ (∀ t iv, initialBurstDeadline t iv retries = t * retries + iv * retries)
    ∧ retryDo hcFailTwice 0 3 = ("ok", true, 3)
    ∧ retryDo hcAlwaysFail 0 3 = ("fail2", false, 3) := by
  refine ⟨?_, ?_, ?_, fun _ _ => rfl, rfl, rfl⟩
  · simpa using retryDo_ctr_le cmd retries 0
  · simpa using retryDo_false_iff cmd retries 0
  · intro hf
    simpa using retryDo_false_out cmd retries 0 (by omega) hf

/-- Claim C8 witness: the always-failing command at `retries = 3`. -/
theorem runHealthCheck_initial_burst_spec_witness :
    retryDo hcAlwaysFail 0 3 = ("fail2", false, 3) :=
  (runHealthCheck_initial_burst_spec hcAlwaysFail 3 (by omega)).2.2.2.2.2

theorem SaveMemberState_stableTag (me v : String) (s : StoreState) :
    (SaveMemberState me v s).stableTag = s.stableTag := rfl

theorem SaveMemberState_avoidTags (me v : String) (s : StoreState) :
    (SaveMemberState me v s).avoidTags = s.avoidTags := rfl

theorem SaveMemberState_canaryLock (me v : String) (s : StoreState) :
    (SaveMemberState me v s).canaryLock = s.canaryLock := rfl

theorem CurrentStableTag_SaveMemberState (me v : String) (s : StoreState) :
    CurrentStableTag (SaveMemberState me v s) = CurrentStableTag s := rfl

theorem SaveAvoidReleaseTag_mem (tag : String) (s : StoreState) :
    tag ∈ (SaveAvoidReleaseTag tag s).avoidTags := by
  by_cases h : tag ∈ s.avoidTags <;>
    simp [SaveAvoidReleaseTag, List.contains, List.elem_eq_mem, h,
      List.mem_append]

theorem SaveAvoidReleaseTag_contains (tag : String) (s : StoreState) :
    (SaveAvoidReleaseTag tag s).avoidTags.contains tag = true := by
  simp [List.contains, List.elem_eq_mem, SaveAvoidReleaseTag_mem]

/-- Claim C6: a fully successful canary cycle — fresh candidate, gate
passed, lock acquired, deploy succeeded, health verification succeeded —
returns `nil`, stores the deployed tag as the Stable Tag, and leaves the
canary lock key absent (it is explicitly deleted before the cycle
returns). -/
theorem canary_success_spec (env : Env) (s : StoreState) (tag file : String)
    (hdl : env.download LatestTag = .ok tag file)
    (hns : tag ≠ CurrentStableTag s)
    (hgate : CanInstallTag tag env.versionOut s.avoidTags = none)
    (hlock : s.canaryLock.value = none)
    (hdl2 : env.download tag = .ok tag file)
    (hdep : env.deployCmdOk = true)
    (hhc : (runHealthCheck env.healthCmd env.retries env.watchTicks).2.1 = true) :
    (handleCanaryRelease env s).1 = none
    ∧ (handleCanaryRelease env s).2.1.stableTag = some tag
    ∧ (handleCanaryRelease env s).2.1.canaryLock.value = none := by
  simp only [handleCanaryRelease, hdl, CurrentStableTag_SaveMemberState,
    SaveMemberState_avoidTags, SaveMemberState_canaryLock, hgate,
    TryCanaryReleaseLock, getLock, hlock, deploy, hdl2, hdep, hhc,
    if_neg hns, Bool.false_eq_true, if_false, if_true,
    SaveMemberState_stableTag]
  exact ⟨trivial, trivial, trivial⟩

/-- Claim C6 witness: the generic healthy environment on an empty store
promotes `v2` and releases the canary lock. -/
theorem canary_success_spec_witness :
    (handleCanaryRelease envW store0).1 = none
    ∧ (handleCanaryRelease envW store0).2.1.stableTag = some "v2"
    ∧ (handleCanaryRelease envW store0).2.1.canaryLock.value = none :=
  canary_success_spec envW store0 "v2" "/usr/local/src/app.tar.gz"
    rfl (by decide) rfl rfl rfl rfl rfl

/-- The store a failed canary verification leaves behind: member state
saved, canary lock held (its TTL left to expire), the failed tag added to
the Avoid Set. -/
def canaryFailStore (env : Env) (s : StoreState) (tag : String) : StoreState :=
  SaveAvoidReleaseTag tag
    { SaveMemberState env.me env.versionOut s with
        canaryLock := ⟨some tag, some (env.canaryWindow * 2)⟩ }

theorem dispatchCanary_flat (m : String) :
    dispatchCanary (some (.flat m)) = .fatal (.flat m) := rfl

theorem dispatchCanary_wrapped_flat (m m' : String) :
    dispatchCanary (some (.wrapped m (.flat m'))) =
      .fatal (.wrapped m (.flat m')) := rfl

theorem dispatchCanary_noRollback :
    dispatchCanary (some .noRollback) = .continueNoRollback := rfl

theorem dispatchCanary_rollback :
    dispatchCanary (some .rollback) = .continueRollbackLogged := rfl

/-- The result and events of a failed canary verification: the store is
`canaryFailStore`, the deploy command ran, and the outcome is decided by
`RollbackTag` and `handleRollback`. -/
theorem canary_failure_shape (env : Env) (s : StoreState) (tag file : String)
    (hdl : env.download LatestTag = .ok tag file)
    (hns : tag ≠ CurrentStableTag s)
    (hgate : CanInstallTag tag env.versionOut s.avoidTags = none)
    (hlock : s.canaryLock.value = none)
    (hdl2 : env.download tag = .ok tag file)
    (hdep : env.deployCmdOk = true)
    (hhc : (runHealthCheck env.healthCmd env.retries env.watchTicks).2.1 = false) :
    handleCanaryRelease env s =
      (match RollbackTag env.versionOut (canaryFailStore env s tag) with
       | .error e => (some e, canaryFailStore env s tag,
           [.exec env.deployCommand tag file])
       | .ok rbTag => ((handleRollback rbTag env).1, canaryFailStore env s tag,
           .exec env.deployCommand tag file :: (handleRollback rbTag env).2)) := by
  simp only [handleCanaryRelease, hdl, CurrentStableTag_SaveMemberState,
    SaveMemberState_avoidTags, SaveMemberState_canaryLock, hgate,
    TryCanaryReleaseLock, getLock, hlock, deploy, hdl2, hdep, hhc,
    if_neg hns, Bool.false_eq_true, if_false, if_true]
  rfl

/-- Claim C7: after a failed health verification in a canary cycle, the
failed tag is in the Avoid Set; the rollback target is the pre-deploy
installed version, falling back to the current Stable Tag when that was
empty; an unresolvable target is a hard error (the tick returns a fatal
error); a missing rollback command is the distinguished "no rollback"
outcome (logged, not fatal); a successful rollback invocation — run with
the target tag and its artifact — is the distinguished "rollback
performed" outcome; and a failed rollback invocation is a hard error. -/
theorem canary_failure_rollback_spec (env : Env) (s : StoreState)
    (tag file : String)
    (hdl : env.download LatestTag = .ok tag file)
    (hns : tag ≠ CurrentStableTag s)
    (hgate : CanInstallTag tag env.versionOut s.avoidTags = none)
    (hlock : s.canaryLock.value = none)
    (hdl2 : env.download tag = .ok tag file)
    (hdep : env.deployCmdOk = true)
    (hhc : (runHealthCheck env.healthCmd env.retries env.watchTicks).2.1 = false) :
    ((handleCanaryRelease env s).2.1.avoidTags.contains tag = true)
    ∧ ((if env.versionOut = "" then CurrentStableTag s else env.versionOut) = "" →
        (handleCanaryRelease env s).1 = some (.flat "can't decided rollback tag")
        ∧ dispatchCanary (handleCanaryRelease env s).1 =
            .fatal (.flat "can't decided rollback tag"))
    ∧ ((if env.versionOut = "" then CurrentStableTag s else env.versionOut) ≠ "" →
        env.rollbackCommand = "" →
        (handleCanaryRelease env s).1 = some .noRollback
        ∧ dispatchCanary (handleCanaryRelease env s).1 = .continueNoRollback)
    ∧ (∀ rbFile,
        (if env.versionOut = "" then CurrentStableTag s else env.versionOut) ≠ "" →
        env.rollbackCommand ≠ "" →
        env.download (if env.versionOut = "" then CurrentStableTag s else env.versionOut) =
          .ok (if env.versionOut = "" then CurrentStableTag s else env.versionOut) rbFile →
        env.rollbackCmdOk = true →
        (handleCanaryRelease env s).1 = some .rollback
        ∧ (handleCanaryRelease env s).2.2 =
            [.exec env.deployCommand tag file,
             .exec env.rollbackCommand
               (if env.versionOut = "" then CurrentStableTag s else env.versionOut) rbFile]
        ∧ dispatchCanary (handleCanaryRelease env s).1 = .continueRollbackLogged)
    ∧ (∀ rbFile,
        (if env.versionOut = "" then CurrentStableTag s else env.versionOut) ≠ "" →
        env.rollbackCommand ≠ "" →
        env.download (if env.versionOut = "" then CurrentStableTag s else env.versionOut) =
          .ok (if env.versionOut = "" then CurrentStableTag s else env.versionOut) rbFile →
        env.rollbackCmdOk = false →
        (handleCanaryRelease env s).1 =
          some (.wrapped "rollback command failed" (.flat "failed to execute command"))
        ∧ dispatchCanary (handleCanaryRelease env s).1 =
            .fatal (.wrapped "rollback command failed"
              (.flat "failed to execute command"))) := by
  have hshape : handleCanaryRelease env s =
      (match RollbackTag env.versionOut (canaryFailStore env s tag) with
       | .error e => (some e, canaryFailStore env s tag,
           [.exec env.deployCommand tag file])
       | .ok rbTag => ((handleRollback rbTag env).1, canaryFailStore env s tag,
           .exec env.deployCommand tag file :: (handleRollback rbTag env).2)) :=
    canary_failure_shape env s tag file hdl hns hgate hlock hdl2 hdep hhc
  have hrbt : RollbackTag env.versionOut (canaryFailStore env s tag) =
      (if (if env.versionOut = "" then CurrentStableTag s else env.versionOut) = ""
       then .error (.flat "can't decided rollback tag")
       else .ok (if env.versionOut = "" then CurrentStableTag s else env.versionOut)) := rfl
  refine ⟨?_, ?_, ?_, ?_, ?_⟩
  · rw [hshape]
    cases hrb : RollbackTag env.versionOut (canaryFailStore env s tag) <;>
      simp [hrb, canaryFailStore, SaveAvoidReleaseTag_mem, List.contains,
        List.elem_eq_mem]
  · intro hemp
    rw [hshape, hrbt]
    simp [hemp, dispatchCanary_flat]
  · intro hne hnorb
    rw [hshape, hrbt]
    simp only [if_neg hne]
    simp [handleRollback, hnorb, dispatchCanary_noRollback]
  · intro rbFile hne hrbcmd hrbdl hrbok
    rw [hshape, hrbt]
    simp only [if_neg hne]
    simp [handleRollback, hrbcmd, deploy, hrbdl, hrbok, dispatchCanary_rollback]
  · intro rbFile hne hrbcmd hrbdl hrbko
    rw [hshape, hrbt]
    simp only [if_neg hne]
    simp [handleRollback, hrbcmd, deploy, hrbdl, hrbko, dispatchCanary_wrapped_flat]

/-- The unhealthy variant of `envW`: the download oracle serves any
explicit tag, and every health-check invocation fails. -/
def envC7 : Env :=
  { envW with
      download := fun t =>
        if t = LatestTag then .ok "v2" "/usr/local/src/app.tar.gz"
        else .ok t "/usr/local/src/app.tar.gz"
      healthCmd := fun _ => ⟨"unhealthy", false⟩ }

/-- Claim C7 witness: on an empty store with installed version `v1`, the
failed candidate `v2` lands in the Avoid Set and the configured rollback
command succeeds, giving the distinguished "rollback performed" result. -/
theorem canary_failure_rollback_spec_witness :
    (handleCanaryRelease envC7 store0).2.1.avoidTags.contains "v2" = true
    ∧ (handleCanaryRelease envC7 store0).1 = some .rollback :=
  ⟨(canary_failure_rollback_spec envC7 store0 "v2" "/usr/local/src/app.tar.gz"
      rfl (by decide) rfl rfl rfl rfl rfl).1,
   ((canary_failure_rollback_spec envC7 store0 "v2" "/usr/local/src/app.tar.gz"
      rfl (by decide) rfl rfl rfl rfl rfl).2.2.2.1 "/usr/local/src/app.tar.gz"
      (by decide) (by decide) rfl rfl).1⟩

/-! ### Claim C9: idempotence of `DownloadReleaseAsset` -/

theorem findAsset_d0 (env : GitHubEnv) (tn : String) :
    ∀ assets (g : GitHubState), (findAsset env g tn assets).2.2 = 0 →
      (findAsset env g tn assets).2.1 = g
  | [], _, _ => rfl
  | name :: rest, g, h => by
    by_cases hp : env.pattern name = true
    · by_cases hf : assetPath env name ∈ g.fs
      · simp [findAsset, hp, hf]
      · simp [findAsset, hp, hf] at h
    · rw [Bool.not_eq_true] at hp
      simp only [findAsset, hp, Bool.false_eq_true, if_false] at h ⊢
      exact findAsset_d0 env tn rest g h

theorem findAsset_d_le (env : GitHubEnv) (tn : String) :
    ∀ assets (g : GitHubState), (findAsset env g tn assets).2.2 ≤ 1
  | [], _ => Nat.zero_le 1
  | name :: rest, g => by
    by_cases hp : env.pattern name = true
    · by_cases hf : assetPath env name ∈ g.fs
      · simp [findAsset, hp, hf]
      · simp [findAsset, hp, hf]
    · rw [Bool.not_eq_true] at hp
      simp only [findAsset, hp, Bool.false_eq_true, if_false]
      exact findAsset_d_le env tn rest g

theorem findAsset_d1 (env : GitHubEnv) (tn : String) :
    ∀ assets (g : GitHubState), (findAsset env g tn assets).2.2 ≠ 0 →
      (findAsset env g tn assets).1 =
        .ok (tn, (findAsset env g tn assets).2.1.lastAssetFile)
      ∧ (findAsset env g tn assets).2.1.lastTag = tn
  | [], _, h => absurd rfl h
  | name :: rest, g, h => by
    by_cases hp : env.pattern name = true
    · by_cases hf : assetPath env name ∈ g.fs
      · simp [findAsset, hp, hf] at h
      · simp [findAsset, hp, hf]
    · rw [Bool.not_eq_true] at hp
      simp only [findAsset, hp, Bool.false_eq_true, if_false] at h ⊢
      exact findAsset_d1 env tn rest g h

theorem findAsset_idem (env : GitHubEnv) (tn : String) :
    ∀ assets (g : GitHubState),
      findAsset env (findAsset env g tn assets).2.1 tn assets =
        ((findAsset env g tn assets).1, (findAsset env g tn assets).2.1, 0)
  | [], _ => rfl
  | name :: rest, g => by
    by_cases hp : env.pattern name = true
    · by_cases hf : assetPath env name ∈ g.fs
      · simp [findAsset, hp, hf]
      · simp [findAsset, hp, hf]
    · rw [Bool.not_eq_true] at hp
      simp only [findAsset, hp, Bool.false_eq_true, if_false]
      exact findAsset_idem env tn rest g

/-- Claim C9: for a fixed explicit tag, `DownloadReleaseAsset` is
idempotent — the first call performs the remote download at most once, and
a second call returns the same result (in particular the same local file
path on success) and the same state while performing no download at all:
either the in-memory `lastTag`/`lastAssetFile` cache answers, or the asset
file already on disk is returned without re-downloading. -/
theorem DownloadReleaseAsset_idempotent (env : GitHubEnv) (g : GitHubState)
    (tag : String) (_hne : tag ≠ "") (_hnl : tag ≠ LatestTag) :
    DownloadReleaseAsset env (DownloadReleaseAsset env g tag).2.1 tag =
      ((DownloadReleaseAsset env g tag).1,
        (DownloadReleaseAsset env g tag).2.1, 0)
    ∧ (DownloadReleaseAsset env g tag).2.2 ≤ 1 := by
  by_cases hc : tag ≠ "" ∧ tag = g.lastTag ∧ g.lastAssetFile ≠ ""
  · have h1 : DownloadReleaseAsset env g tag =
        (.ok (tag, g.lastAssetFile), g, 0) := by
      rw [DownloadReleaseAsset, if_pos hc]
    rw [h1]
    exact ⟨h1, Nat.zero_le 1⟩
  · cases hrel : env.releaseByTag tag with
    | none =>
      have h1 : DownloadReleaseAsset env g tag =
          (.error (.wrapped "repositories.GetRelease returned error"
            .assetsCannotDownload), g, 0) := by
        rw [DownloadReleaseAsset, if_neg hc, hrel]
      rw [h1]
      exact ⟨h1, Nat.zero_le 1⟩
    | some rel =>
      have h1 : DownloadReleaseAsset env g tag =
          findAsset env g rel.tagName rel.assets := by
        rw [DownloadReleaseAsset, if_neg hc, hrel]
      rw [h1]
      refine ⟨?_, findAsset_d_le env rel.tagName rel.assets g⟩
      by_cases hd : (findAsset env g rel.tagName rel.assets).2.2 = 0
      · have hg := findAsset_d0 env rel.tagName rel.assets g hd
        calc DownloadReleaseAsset env
              (findAsset env g rel.tagName rel.assets).2.1 tag
            = findAsset env g rel.tagName rel.assets := by rw [hg, h1]
          _ = ((findAsset env g rel.tagName rel.assets).1,
                (findAsset env g rel.tagName rel.assets).2.1, 0) := by
              rw [← hd]
      · have hd1 := findAsset_d1 env rel.tagName rel.assets g hd
        by_cases hc2 : tag ≠ ""
            ∧ tag = (findAsset env g rel.tagName rel.assets).2.1.lastTag
            ∧ (findAsset env g rel.tagName rel.assets).2.1.lastAssetFile ≠ ""
        · rw [DownloadReleaseAsset, if_pos hc2, hd1.1]
          have htag : tag = rel.tagName := by rw [hc2.2.1, hd1.2]
          rw [htag]
        · rw [DownloadReleaseAsset, if_neg hc2, hrel]
          exact findAsset_idem env rel.tagName rel.assets g

/-- A concrete GitHub environment: one release `v1.2.3` with a single
asset matching the configured name pattern. -/
def ghEnvW : GitHubEnv :=
  { releaseByTag := fun t =>
      if t = "v1.2.3" then some ⟨"v1.2.3", ["app.tar.gz"]⟩ else none
    pattern := fun name => name == "app.tar.gz"
    saveAssetsPath := "/usr/local/src" }

/-- Claim C9 witness: a concrete release with one matching asset on a
fresh client state downloads once; the repeat call is served without a
download and yields the same path. -/
theorem DownloadReleaseAsset_idempotent_witness :
    ("v1.2.3" : String) ≠ ""
    ∧ ("v1.2.3" : String) ≠ LatestTag
    ∧ DownloadReleaseAsset ghEnvW
        (DownloadReleaseAsset ghEnvW ⟨[], "", ""⟩ "v1.2.3").2.1 "v1.2.3" =
      ((DownloadReleaseAsset ghEnvW ⟨[], "", ""⟩ "v1.2.3").1,
        (DownloadReleaseAsset ghEnvW ⟨[], "", ""⟩ "v1.2.3").2.1, 0)
    ∧ (DownloadReleaseAsset ghEnvW ⟨[], "", ""⟩ "v1.2.3").2.2 ≤ 1 :=
  ⟨by decide, by decide,
   (DownloadReleaseAsset_idempotent ghEnvW ⟨[], "", ""⟩ "v1.2.3"
      (by decide) (by decide)).1,
   (DownloadReleaseAsset_idempotent ghEnvW ⟨[], "", ""⟩ "v1.2.3"
      (by decide) (by decide)).2⟩

end Gacr
